import Mathlib

/-!
Verification of the Feature Profiling and Classification Engine of the
sonnysDataCollection repository, as a shallow embedding in Lean 4.

Real numbers of the Python source are modelled as exact rationals; the
Python builtin round (banker rounding to d decimal digits) is modelled by
pyRound. Dictionaries are modelled as association lists looked up with
alist_lookup (first matching key wins, as in Python dicts, whose keys are
unique). Output fields of the engine that are purely descriptive
enrichments (expected_volume, feature_details, report text) are omitted
from the embedded result records; every field a claim speaks about is kept.
-/

/-- Banker rounding of a rational to the nearest integer, ties to even,
modelling the Python builtin round applied to a real value. -/
def roundHalfEven (x : ℚ) : ℤ :=
  let f := ⌊x⌋
  let r := x - f
  if r < 1/2 then f
  else if 1/2 < r then f + 1
  else if f % 2 = 0 then f else f + 1

/-- Python round(x, d): banker rounding to d decimal digits. -/
def pyRound (x : ℚ) (d : ℕ) : ℚ :=
  (roundHalfEven (x * 10 ^ d) : ℚ) / 10 ^ d

/-- First-match association-list lookup, modelling Python dict access. -/
def alist_lookup {α : Type} (k : String) : List (String × α) → Option α
  | [] => none
  | (k2, v) :: rest => if k = k2 then some v else alist_lookup k rest

/-- One record of QuantileProfiler.feature_ranges: the per (feature, tier)
quantile summary stored by _compute_feature_ranges in
src/app/agentic_reference/profiler_engine.py (keys q25, q50, q75, min,
max, count of the Python dict). -/
structure FeatureRange where
  q25 : ℚ
  q50 : ℚ
  q75 : ℚ
  vmin : ℚ
  vmax : ℚ
  count : ℕ
deriving DecidableEq

/-- Distance of a value from the nearest IQR boundary of a stored range,
the quantity called dist in QuantileProfiler.score_feature. -/
def tier_distance (r : FeatureRange) (v : ℚ) : ℚ :=
  min |v - r.q25| |v - r.q75|

/-- The per-tier body of QuantileProfiler.score_feature
(src/app/agentic_reference/profiler_engine.py): inside the IQR the score
is 1.0; otherwise, with positive IQR width, max(0, 1 - dist / width);
with zero width, 1.0 exactly when the value equals q25. -/
def score_feature_against_tier (r : FeatureRange) (v : ℚ) : ℚ :=
  if r.q25 ≤ v ∧ v ≤ r.q75 then 1
  else if 0 < r.q75 - r.q25 then
    max 0 (1 - tier_distance r v / (r.q75 - r.q25))
  else if v = r.q25 then 1 else 0

/-- The stored ranges of one feature, keyed by the three category labels
Low Performing, Average Performing, High Performing (a tier with fewer
than 5 samples is absent, modelled by none). -/
structure TierRanges where
  low : Option FeatureRange
  avg : Option FeatureRange
  high : Option FeatureRange
deriving DecidableEq

/-- Per-tier scores of one feature value, modelling the dict returned by
QuantileProfiler.score_feature (a tier without an entry is none). -/
structure TierScores where
  low : Option ℚ
  avg : Option ℚ
  high : Option ℚ
deriving DecidableEq

/-- QuantileProfiler.score_feature: scores a single feature value against
the IQR of every tier that has data; an unknown feature yields the empty
dict (all fields none). -/
def score_feature (ranges : List (String × TierRanges)) (feature : String)
    (v : ℚ) : TierScores :=
  match alist_lookup feature ranges with
  | none => ⟨none, none, none⟩
  | some tr =>
    ⟨tr.low.map (fun r => score_feature_against_tier r v),
     tr.avg.map (fun r => score_feature_against_tier r v),
     tr.high.map (fun r => score_feature_against_tier r v)⟩

/-- Claim C1: QuantileProfiler.score_feature scores a value against a
stored tier range as follows: 1.0 inside the IQR; with positive IQR width,
max(0, 1 - min(|v - q25|, |v - q75|) / width) outside it; with zero width,
1.0 exactly when the value equals q25. In particular for q25 = 10,
q75 = 20: value 15 scores 1.0, value 25 scores 0.5, value 40 scores 0.0. -/
theorem C1_score_feature_against_tier (r : FeatureRange) (v : ℚ)
    (hq : r.q25 ≤ r.q75) :
    (r.q25 ≤ v ∧ v ≤ r.q75 → score_feature_against_tier r v = 1) ∧
    (¬ (r.q25 ≤ v ∧ v ≤ r.q75) → 0 < r.q75 - r.q25 →
      score_feature_against_tier r v
        = max 0 (1 - min |v - r.q25| |v - r.q75| / (r.q75 - r.q25))) ∧
    (r.q75 - r.q25 = 0 →
      score_feature_against_tier r v = if v = r.q25 then 1 else 0) ∧
    (score_feature_against_tier ⟨10, 15, 20, 10, 20, 5⟩ 15 = 1 ∧
     score_feature_against_tier ⟨10, 15, 20, 10, 20, 5⟩ 25 = 1/2 ∧
     score_feature_against_tier ⟨10, 15, 20, 10, 20, 5⟩ 40 = 0) := by
  refine ⟨?_, ?_, ?_,
    by norm_num [score_feature_against_tier, tier_distance],
    by norm_num [score_feature_against_tier, tier_distance, max_def, min_def,
      abs_of_nonneg, abs_of_nonpos],
    by norm_num [score_feature_against_tier, tier_distance, max_def, min_def,
      abs_of_nonneg, abs_of_nonpos]⟩
  · intro h
    simp [score_feature_against_tier, h]
  · intro h hw
    simp [score_feature_against_tier, h, hw, tier_distance]
  · intro hw
    have hq75 : r.q75 = r.q25 := by linarith
    by_cases hv : v = r.q25
    · have hle : r.q25 ≤ v ∧ v ≤ r.q75 := by constructor <;> simp [hv, hq75]
      unfold score_feature_against_tier
      rw [if_pos hle, if_pos hv]
    · have h1 : ¬ (r.q25 ≤ v ∧ v ≤ r.q75) := by
        rintro ⟨h2, h3⟩
        rw [hq75] at h3
        exact hv (le_antisymm h3 h2)
      unfold score_feature_against_tier
      rw [if_neg h1, if_neg (by simp [hw] : ¬ (0 : ℚ) < r.q75 - r.q25),
        if_neg hv]

/-- Witness for C1 at the concrete range with q25 = 10, q75 = 20 and the
outside value 25, discharging the hypotheses of the second conjunct. -/
theorem C1_score_feature_against_tier_witness :
    score_feature_against_tier ⟨10, 15, 20, 10, 20, 5⟩ 25
      = max 0 (1 - min |(25 : ℚ) - 10| |(25 : ℚ) - 20| / (20 - 10)) :=
  (C1_score_feature_against_tier ⟨10, 15, 20, 10, 20, 5⟩ 25
    (by norm_num)).2.1 (by norm_num) (by norm_num)

/-- Outside the IQR of a stored range the distance to the nearest boundary
is strictly positive. -/
theorem tier_distance_pos (r : FeatureRange) (v : ℚ) (hq : r.q25 ≤ r.q75)
    (h : ¬ (r.q25 ≤ v ∧ v ≤ r.q75)) : 0 < tier_distance r v := by
  rw [not_and_or, not_le, not_le] at h
  unfold tier_distance
  rcases h with h1 | h1
  · have e1 : |v - r.q25| = r.q25 - v := by
      rw [abs_sub_comm, abs_of_pos]
      linarith
    have e2 : |v - r.q75| = r.q75 - v := by
      rw [abs_sub_comm, abs_of_pos]
      linarith
    rw [e1, e2]
    exact lt_min (by linarith) (by linarith)
  · have e1 : |v - r.q25| = v - r.q25 := abs_of_pos (by linarith)
    have e2 : |v - r.q75| = v - r.q75 := abs_of_pos (by linarith)
    rw [e1, e2]
    exact lt_min (by linarith) (by linarith)

/-- Outside the IQR, with positive width, the score is the max-formula. -/
theorem score_outside (r : FeatureRange) (v : ℚ)
    (h : ¬ (r.q25 ≤ v ∧ v ≤ r.q75)) (hw : 0 < r.q75 - r.q25) :
    score_feature_against_tier r v
      = max 0 (1 - tier_distance r v / (r.q75 - r.q25)) := by
  unfold score_feature_against_tier
  rw [if_neg h, if_pos hw]

/-- Claim C9 (amended): with positive IQR width the tier fit score is
exactly 1.0 inside the IQR; outside it lies in the interval from 0
inclusive to 1 exclusive, is non-increasing in the distance from the
nearest boundary, and is strictly decreasing in that distance as long as
the distance stays below the IQR width (beyond one width the score is
already 0 and stays 0, so strict decrease fails there). -/
theorem C9_iqr_score_shape (r : FeatureRange) (hw : 0 < r.q75 - r.q25) :
    (∀ v, r.q25 ≤ v ∧ v ≤ r.q75 → score_feature_against_tier r v = 1) ∧
    (∀ v, ¬ (r.q25 ≤ v ∧ v ≤ r.q75) →
      0 ≤ score_feature_against_tier r v ∧
      score_feature_against_tier r v < 1) ∧
    (∀ v1 v2, ¬ (r.q25 ≤ v1 ∧ v1 ≤ r.q75) → ¬ (r.q25 ≤ v2 ∧ v2 ≤ r.q75) →
      tier_distance r v1 < tier_distance r v2 →
      score_feature_against_tier r v2 ≤ score_feature_against_tier r v1) ∧
    (∀ v1 v2, ¬ (r.q25 ≤ v1 ∧ v1 ≤ r.q75) → ¬ (r.q25 ≤ v2 ∧ v2 ≤ r.q75) →
      tier_distance r v1 < tier_distance r v2 →
      tier_distance r v1 < r.q75 - r.q25 →
      score_feature_against_tier r v2 < score_feature_against_tier r v1) := by
  have hq : r.q25 ≤ r.q75 := by linarith
  refine ⟨?_, ?_, ?_, ?_⟩
  · intro v h
    simp [score_feature_against_tier, h]
  · intro v h
    rw [score_outside r v h hw]
    constructor
    · exact le_max_left 0 _
    · have hd : 0 < tier_distance r v := tier_distance_pos r v hq h
      have : 0 < tier_distance r v / (r.q75 - r.q25) := div_pos hd hw
      exact max_lt (by norm_num) (by linarith)
  · intro v1 v2 h1 h2 hlt
    rw [score_outside r v1 h1 hw, score_outside r v2 h2 hw]
    have : tier_distance r v1 / (r.q75 - r.q25)
        ≤ tier_distance r v2 / (r.q75 - r.q25) :=
      (div_le_div_iff_of_pos_right hw).mpr hlt.le
    exact max_le_max le_rfl (by linarith)
  · intro v1 v2 h1 h2 hlt hnear
    rw [score_outside r v1 h1 hw, score_outside r v2 h2 hw]
    have hpos : 0 < 1 - tier_distance r v1 / (r.q75 - r.q25) := by
      have : tier_distance r v1 / (r.q75 - r.q25) < 1 :=
        (div_lt_one hw).mpr hnear
      linarith
    have hstep : tier_distance r v1 / (r.q75 - r.q25)
        < tier_distance r v2 / (r.q75 - r.q25) :=
      (div_lt_div_iff_of_pos_right hw).mpr hlt
    rw [max_eq_right hpos.le]
    exact max_lt hpos (by linarith)

/-- Witness for C9 at the range with q25 = 10, q75 = 20: the value 28 is
farther outside than 25 and scores strictly less. -/
theorem C9_iqr_score_shape_witness :
    score_feature_against_tier ⟨10, 15, 20, 10, 20, 5⟩ 28
      < score_feature_against_tier ⟨10, 15, 20, 10, 20, 5⟩ 25 :=
  (C9_iqr_score_shape ⟨10, 15, 20, 10, 20, 5⟩ (by norm_num)).2.2.2 25 28
    (by norm_num) (by norm_num)
    (by norm_num [tier_distance, min_def, abs_of_nonneg])
    (by norm_num [tier_distance, min_def, abs_of_nonneg])

/-- Counterexample for C9 as stated: at the same range, the values 40 and
50 are both outside, 50 strictly farther than 40, yet both score exactly
0, so the score is not strictly decreasing in the distance. -/
theorem C9_counterexample :
    tier_distance ⟨10, 15, 20, 10, 20, 5⟩ 40 = 20 ∧
    tier_distance ⟨10, 15, 20, 10, 20, 5⟩ 50 = 30 ∧
    (20 : ℚ) < 30 ∧
    score_feature_against_tier ⟨10, 15, 20, 10, 20, 5⟩ 40 = 0 ∧
    score_feature_against_tier ⟨10, 15, 20, 10, 20, 5⟩ 50 = 0 ∧
    ¬ score_feature_against_tier ⟨10, 15, 20, 10, 20, 5⟩ 50
        < score_feature_against_tier ⟨10, 15, 20, 10, 20, 5⟩ 40 := by
  norm_num [score_feature_against_tier, tier_distance, max_def, min_def,
    abs_of_nonneg, abs_of_nonpos]

/-- Running totals per tier, modelling the totals dict of
QuantileProfiler.score_location (keys in insertion order Low Performing,
Average Performing, High Performing). -/
structure Totals where
  low : ℚ
  avg : ℚ
  high : ℚ
deriving DecidableEq

/-- QuantileProfiler.score_location: sums the per-tier scores of every
feature of the subset (a missing or empty subset, which is falsy in
Python, means all input keys) that is present in the input with a
non-null value; a tier without an entry contributes nothing. -/
def score_location (ranges : List (String × TierRanges))
    (location_features : List (String × Option ℚ))
    (feature_subset : Option (List String)) : Totals :=
  let features_to_score :=
    match feature_subset with
    | some l => if l = [] then location_features.map Prod.fst else l
    | none => location_features.map Prod.fst
  features_to_score.foldl (fun t f =>
    match alist_lookup f location_features with
    | some (some v) =>
      let s := score_feature ranges f v
      ⟨t.low + s.low.getD 0, t.avg + s.avg.getD 0, t.high + s.high.getD 0⟩
    | _ => t) ⟨0, 0, 0⟩

/-- The Python builtin max over the totals dict with key access, as used
by predict and score_dimension: iterates the three labels in insertion
order and keeps the first label whose total is strictly greater than the
current best, so ties favour the earlier label. -/
def pyMax3 (t : Totals) : String × ℚ :=
  if t.low < t.avg then
    if t.avg < t.high then ("High Performing", t.high)
    else ("Average Performing", t.avg)
  else
    if t.low < t.high then ("High Performing", t.high)
    else ("Low Performing", t.low)

/-- Indexing the totals dict by a category label (scores[predicted] in the
source); only the three stored labels are ever used, the final else arm
stands for the High Performing key. -/
def totalFor (t : Totals) (label : String) : ℚ :=
  if label = "Low Performing" then t.low
  else if label = "Average Performing" then t.avg
  else t.high

/-- Result of QuantileProfiler.predict. The purely descriptive
expected_volume block and the optional feature_details block are omitted;
predicted_category, fit_score and category_scores are kept as in the
source (category_scores rounded to 2 digits for output). -/
structure PredictResult where
  predicted_category : String
  fit_score : ℚ
  category_scores : Totals
deriving DecidableEq

/-- QuantileProfiler.predict: scores the location over all input features,
picks the tier with the highest total (Python max, ties to the earliest
label) and reports fit_score = round(100 * scores[predicted] / total, 1)
when the grand total is positive, else 0. -/
def predict (ranges : List (String × TierRanges))
    (location_features : List (String × Option ℚ)) : PredictResult :=
  let scores := score_location ranges location_features none
  let total := scores.low + scores.avg + scores.high
  let predicted := (pyMax3 scores).1
  let fit_pct :=
    if 0 < total then pyRound (100 * totalFor scores predicted / total) 1
    else 0
  ⟨predicted, fit_pct,
    ⟨pyRound scores.low 2, pyRound scores.avg 2, pyRound scores.high 2⟩⟩

/-- The relevant list of DimensionProfiler.score_dimension: features of
the dimension that are present in the input with a non-null value and
have stored reference ranges. -/
def relevant_features (dim_features : List String)
    (location_features : List (String × Option ℚ))
    (ranges : List (String × TierRanges)) : List String :=
  dim_features.filter (fun f =>
    (match alist_lookup f location_features with
     | some (some _) => true
     | _ => false)
    && (alist_lookup f ranges).isSome)

/-- Result of DimensionProfiler.score_dimension. The descriptive
feature_details block is omitted; scores (rounded to 3 digits, none for
the empty dict of the early return), predicted, fit_score and
features_scored are kept as in the source. -/
structure DimensionResult where
  scores : Option Totals
  predicted : String
  fit_score : ℚ
  features_scored : ℕ
deriving DecidableEq

/-- DimensionProfiler.score_dimension: with no relevant feature it reports
Insufficient Data with fit 0 and zero features scored; otherwise it sums
scores over the relevant subset, predicts by Python max when the grand
total is positive (else Insufficient Data) and reports the rounded
relative fit. -/
def score_dimension (ranges : List (String × TierRanges))
    (dim_features : List String)
    (location_features : List (String × Option ℚ)) : DimensionResult :=
  let relevant := relevant_features dim_features location_features ranges
  if relevant = [] then ⟨none, "Insufficient Data", 0, 0⟩
  else
    let scores := score_location ranges location_features (some relevant)
    let total := scores.low + scores.avg + scores.high
    let predicted :=
      if 0 < total then (pyMax3 scores).1 else "Insufficient Data"
    let fit_pct :=
      if 0 < total then pyRound (100 * totalFor scores predicted / total) 1
      else 0
    ⟨some ⟨pyRound scores.low 3, pyRound scores.avg 3, pyRound scores.high 3⟩,
     predicted, fit_pct, relevant.length⟩

/-- The winning value of pyMax3 is the maximum of the three totals. -/
theorem pyMax3_val (t : Totals) : (pyMax3 t).2 = max t.low (max t.avg t.high) := by
  unfold pyMax3
  split_ifs with h1 h2 h3 <;> simp [max_def] <;> split_ifs <;> linarith

/-- The winning label of pyMax3 indexes its winning value. -/
theorem pyMax3_label_val (t : Totals) : totalFor t (pyMax3 t).1 = (pyMax3 t).2 := by
  unfold pyMax3
  split_ifs <;> simp [totalFor]

/-- The winning label of pyMax3 is one of the three category labels. -/
theorem pyMax3_label_mem (t : Totals) :
    (pyMax3 t).1 = "Low Performing" ∨ (pyMax3 t).1 = "Average Performing" ∨
    (pyMax3 t).1 = "High Performing" := by
  unfold pyMax3
  split_ifs <;> simp

/-- A successful association-list lookup means the pair is in the list. -/
theorem alist_lookup_mem {α : Type} (k : String) (l : List (String × α))
    (x : α) (h : alist_lookup k l = some x) : (k, x) ∈ l := by
  induction l with
  | nil => simp [alist_lookup] at h
  | cons p rest ih =>
    obtain ⟨k2, v⟩ := p
    by_cases hk : k = k2
    · subst hk
      rw [alist_lookup, if_pos rfl] at h
      injection h with h
      subst h
      exact List.mem_cons_self _ _
    · rw [alist_lookup, if_neg hk] at h
      exact List.mem_cons_of_mem _ (ih h)

/-- If no non-null input feature has stored ranges, the scoring fold of
score_location leaves its accumulator unchanged. -/
theorem score_location_fold_id (ranges : List (String × TierRanges))
    (input : List (String × Option ℚ))
    (H : ∀ f v, (f, some v) ∈ input → alist_lookup f ranges = none)
    (l : List String) (acc : Totals) :
    l.foldl (fun t f =>
      match alist_lookup f input with
      | some (some v) =>
        let s := score_feature ranges f v
        ⟨t.low + s.low.getD 0, t.avg + s.avg.getD 0, t.high + s.high.getD 0⟩
      | _ => t) acc = acc := by
  induction l generalizing acc with
  | nil => rfl
  | cons f rest ih =>
    rw [List.foldl_cons, ih]
    show (match alist_lookup f input with
      | some (some v) =>
        let s := score_feature ranges f v
        (⟨acc.low + s.low.getD 0, acc.avg + s.avg.getD 0,
          acc.high + s.high.getD 0⟩ : Totals)
      | _ => acc) = acc
    cases h : alist_lookup f input with
    | none => rfl
    | some ov =>
      cases ov with
      | none => rfl
      | some v =>
        have hr := H f v (alist_lookup_mem f input (some v) h)
        simp [score_feature, hr]

/-- If no non-null input feature has stored ranges, all tier totals of
score_location are zero. -/
theorem score_location_all_unknown (ranges : List (String × TierRanges))
    (input : List (String × Option ℚ)) (sub : Option (List String))
    (H : ∀ f v, (f, some v) ∈ input → alist_lookup f ranges = none) :
    score_location ranges input sub = ⟨0, 0, 0⟩ := by
  unfold score_location
  exact score_location_fold_id ranges input H _ ⟨0, 0, 0⟩

/-- Claim C2 (amended): predict picks the tier whose total is the maximum
of the three tier totals, and reports a fit score equal to
100 x winningTotal / sumOfAllTierTotals rounded to one decimal digit
(Python round) when the sum is positive, and 0 when all tier totals are
zero. -/
theorem C2_predict_argmax (ranges : List (String × TierRanges))
    (input : List (String × Option ℚ)) (t : Totals)
    (ht : t = score_location ranges input none) :
    ((predict ranges input).predicted_category = "Low Performing" ∨
     (predict ranges input).predicted_category = "Average Performing" ∨
     (predict ranges input).predicted_category = "High Performing") ∧
    totalFor t (predict ranges input).predicted_category
      = max t.low (max t.avg t.high) ∧
    (0 < t.low + t.avg + t.high →
      (predict ranges input).fit_score
        = pyRound (100 * max t.low (max t.avg t.high)
            / (t.low + t.avg + t.high)) 1) ∧
    ((t.low = 0 ∧ t.avg = 0 ∧ t.high = 0) →
      (predict ranges input).fit_score = 0) := by
  have hp : (predict ranges input).predicted_category
      = (pyMax3 t).1 := by rw [ht]; rfl
  have hf : (predict ranges input).fit_score
      = (if 0 < t.low + t.avg + t.high then
          pyRound (100 * totalFor t (pyMax3 t).1
            / (t.low + t.avg + t.high)) 1
        else 0) := by rw [ht]; rfl
  refine ⟨hp ▸ pyMax3_label_mem t, ?_, ?_, ?_⟩
  · rw [hp, pyMax3_label_val, pyMax3_val]
  · intro hpos
    rw [hf, if_pos hpos, pyMax3_label_val, pyMax3_val]
  · rintro ⟨h1, h2, h3⟩
    rw [hf, if_neg]
    rw [h1, h2, h3]
    norm_num

/-- With one feature whose value sits inside the IQR of all three tiers,
every tier total is 1. -/
theorem score_location_three_ones :
    score_location
      [("f", ⟨some ⟨0, 5, 10, 0, 10, 5⟩, some ⟨0, 5, 10, 0, 10, 5⟩,
        some ⟨0, 5, 10, 0, 10, 5⟩⟩)]
      [("f", some 5)] none = ⟨1, 1, 1⟩ := by
  show score_location _ _ _ = _
  norm_num [score_location, score_feature, alist_lookup,
    score_feature_against_tier]

/-- Rounding 100/3 to one decimal digit gives 33.3. -/
theorem pyRound_hundred_thirds : pyRound (100 / 3 : ℚ) 1 = 333 / 10 := by
  have hfloor : ⌊(100 / 3 : ℚ) * 10 ^ 1⌋ = 333 := by
    rw [Int.floor_eq_iff]
    constructor <;> norm_num
  rw [pyRound, roundHalfEven]
  rw [hfloor]
  norm_num

/-- Counterexample to C2 as stated: with one feature fitting all three
tiers perfectly the totals are (1, 1, 1), and predict reports 33.3, which
is not equal to 100 x winningTotal / sumOfAllTierTotals = 100/3 (the
source rounds to one decimal digit). -/
theorem C2_counterexample :
    score_location
      [("f", ⟨some ⟨0, 5, 10, 0, 10, 5⟩, some ⟨0, 5, 10, 0, 10, 5⟩,
        some ⟨0, 5, 10, 0, 10, 5⟩⟩)]
      [("f", some 5)] none = ⟨1, 1, 1⟩ ∧
    (predict
      [("f", ⟨some ⟨0, 5, 10, 0, 10, 5⟩, some ⟨0, 5, 10, 0, 10, 5⟩,
        some ⟨0, 5, 10, 0, 10, 5⟩⟩)]
      [("f", some 5)]).fit_score = 333 / 10 ∧
    (333 / 10 : ℚ) ≠ 100 * 1 / (1 + 1 + 1) := by
  refine ⟨score_location_three_ones, ?_, by norm_num⟩
  have hfit : (predict
      [("f", ⟨some ⟨0, 5, 10, 0, 10, 5⟩, some ⟨0, 5, 10, 0, 10, 5⟩,
        some ⟨0, 5, 10, 0, 10, 5⟩⟩)]
      [("f", some 5)]).fit_score = pyRound (100 / 3 : ℚ) 1 := by
    simp only [predict, score_location_three_ones]
    norm_num [pyMax3, totalFor]
  rw [hfit, pyRound_hundred_thirds]

/-- Witness for C2 at the same concrete profiler state, discharging the
positive-total hypothesis. -/
theorem C2_predict_argmax_witness :
    (predict
      [("f", ⟨some ⟨0, 5, 10, 0, 10, 5⟩, some ⟨0, 5, 10, 0, 10, 5⟩,
        some ⟨0, 5, 10, 0, 10, 5⟩⟩)]
      [("f", some 5)]).fit_score
      = pyRound (100 * max 1 (max 1 1) / ((1 : ℚ) + 1 + 1)) 1 :=
  (C2_predict_argmax _ _ ⟨1, 1, 1⟩ score_location_three_ones.symm).2.2.1
    (by norm_num)

/-- Claim C3 (amended): when no input feature has stored reference ranges,
DimensionProfiler.score_dimension reports tier Insufficient Data with fit
score 0 and features_scored 0; QuantileProfiler.predict however reports
the first category label Low Performing (Python max over an all-zero
dict) with fit score 0, and its result carries no count of features
scored. -/
theorem C3_zero_scorable (ranges : List (String × TierRanges))
    (dim_features : List String) (input : List (String × Option ℚ))
    (H : ∀ f v, (f, some v) ∈ input → alist_lookup f ranges = none) :
    score_dimension ranges dim_features input
      = ⟨none, "Insufficient Data", 0, 0⟩ ∧
    (predict ranges input).predicted_category = "Low Performing" ∧
    (predict ranges input).fit_score = 0 ∧
    "Low Performing" ≠ "Insufficient Data" := by
  have hrel : relevant_features dim_features input ranges = [] := by
    rw [relevant_features, List.filter_eq_nil_iff]
    intro f _
    cases h : alist_lookup f input with
    | none => simp [h]
    | some ov =>
      cases ov with
      | none => simp [h]
      | some v =>
        have hr := H f v (alist_lookup_mem f input (some v) h)
        simp [h, hr]
  have hsl : score_location ranges input none = ⟨0, 0, 0⟩ :=
    score_location_all_unknown ranges input none H
  refine ⟨?_, ?_, ?_, by decide⟩
  · unfold score_dimension
    rw [hrel, if_pos rfl]
  · simp only [predict, hsl]
    norm_num [pyMax3]
  · simp only [predict, hsl]
    norm_num

/-- Witness for C3: the empty reference store scores nothing, so
score_dimension reports Insufficient Data with zero features scored. -/
theorem C3_zero_scorable_witness :
    score_dimension [] ["f"] [("x", some 5)]
      = ⟨none, "Insufficient Data", 0, 0⟩ :=
  (C3_zero_scorable [] ["f"] [("x", some 5)] (fun _ _ _ => rfl)).1

/-- Counterexample to C3 as stated: with an empty reference store, predict
reports the ordinary tier label Low Performing, not Insufficient Data. -/
theorem C3_counterexample :
    (predict [] [("x", some 5)]).predicted_category = "Low Performing" ∧
    "Low Performing" ≠ "Insufficient Data" ∧
    (predict [] [("x", some 5)]).fit_score = 0 := by
  refine ⟨?_, by decide, ?_⟩ <;>
    norm_num [predict, score_location, score_feature, alist_lookup, pyMax3]

/-- scipy.stats.percentileofscore with kind rank, as called by
CTOExactProfiler.score_feature_cto_method (src/scoringmetric/approach2/
main.py) and PercentileEngine.score (src/scoringmetric/approach1/
percentile_engine.py): with left the count of samples strictly below and
right the count of samples at or below the value, the percentile is
(left + right + 1 if any sample ties, else left + right) * 50 / n. -/
def percentileofscore_rank (a : List ℚ) (score : ℚ) : ℚ :=
  let n := a.length
  let left := a.countP (fun x => decide (x < score))
  let right := a.countP (fun x => decide (x ≤ score))
  ((left : ℚ) + right + (if left < right then 1 else 0)) * 50 / n

/-- PercentileEngine.score: the rank percentile, inverted for features
whose direction is lower, rounded to two digits. -/
def percentile_engine_score (values : List ℚ) (direction : String)
    (value : ℚ) : ℚ :=
  let p := percentileofscore_rank values value
  if direction = "lower" then pyRound (100 - p) 2 else pyRound p 2

/-- The at-or-below count splits into the strictly-below count plus the
tie count. -/
theorem countP_le_split (a : List ℚ) (v : ℚ) :
    a.countP (fun x => decide (x ≤ v))
      = a.countP (fun x => decide (x < v))
        + a.countP (fun x => decide (x = v)) := by
  induction a with
  | nil => rfl
  | cons x xs ih =>
    simp only [List.countP_cons, ih]
    rcases lt_trichotomy x v with h | h | h
    · simp [h, le_of_lt h, ne_of_lt h]
      omega
    · subst h
      simp
      omega
    · simp [not_le.mpr h, not_lt.mpr (le_of_lt h), ne_of_gt h]

/-- Claim C5 (amended): the rank percentile used by both scorers is the
scipy average-rank convention; it always lies in the interval 0 to 100,
and it equals the percentage of samples at or below the value exactly
when at most one sample ties the value (with two or more ties the
average-rank value is strictly smaller). -/
theorem C5_rank_percentile (a : List ℚ) (v : ℚ) (hne : a ≠ []) :
    0 ≤ percentileofscore_rank a v ∧
    percentileofscore_rank a v ≤ 100 ∧
    (a.countP (fun x => decide (x = v)) ≤ 1 →
      percentileofscore_rank a v
        = 100 * (a.countP (fun x => decide (x ≤ v)) : ℚ) / a.length) := by
  have hn : 0 < a.length := List.length_pos.mpr hne
  have hnq : (0 : ℚ) < a.length := by exact_mod_cast hn
  have hsplit := countP_le_split a v
  have hrn : a.countP (fun x => decide (x ≤ v)) ≤ a.length :=
    List.countP_le_length _
  refine ⟨?_, ?_, ?_⟩
  · apply div_nonneg _ hnq.le
    have : (0 : ℚ) ≤ (if a.countP (fun x => decide (x < v))
        < a.countP (fun x => decide (x ≤ v)) then (1 : ℚ) else 0) := by
      split_ifs <;> norm_num
    positivity
  · rw [percentileofscore_rank, div_le_iff₀ hnq]
    split_ifs with h
    · have hnat : a.countP (fun x => decide (x < v))
          + a.countP (fun x => decide (x ≤ v)) + 1 ≤ 2 * a.length := by
        omega
      have : ((a.countP (fun x => decide (x < v)) : ℚ)
          + a.countP (fun x => decide (x ≤ v)) + 1) ≤ 2 * a.length := by
        exact_mod_cast hnat
      linarith
    · have hnat : a.countP (fun x => decide (x < v))
          + a.countP (fun x => decide (x ≤ v)) ≤ 2 * a.length := by
        omega
      have : ((a.countP (fun x => decide (x < v)) : ℚ)
          + a.countP (fun x => decide (x ≤ v))) ≤ 2 * a.length := by
        exact_mod_cast hnat
      linarith
  · intro he
    rw [percentileofscore_rank]
    rcases Nat.le_one_iff_eq_zero_or_eq_one.mp he with h0 | h1
    · have hr : a.countP (fun x => decide (x ≤ v))
          = a.countP (fun x => decide (x < v)) := by omega
      rw [hr, if_neg (lt_irrefl _)]
      ring
    · have hr : a.countP (fun x => decide (x ≤ v))
          = a.countP (fun x => decide (x < v)) + 1 := by omega
      rw [hr, if_pos (Nat.lt_succ_self _)]
      push_cast
      ring

/-- Witness for C5 on the tie-free sample 1, 2, 3 at value 2: the rank
percentile equals the at-or-below percentage. -/
theorem C5_rank_percentile_witness :
    percentileofscore_rank [1, 2, 3] 2
      = 100 * (([1, 2, 3] : List ℚ).countP (fun x => decide (x ≤ 2)) : ℚ)
          / ([1, 2, 3] : List ℚ).length :=
  (C5_rank_percentile [1, 2, 3] 2 (by simp)).2.2
    (by norm_num [List.countP_cons, List.countP_nil])

/-- Counterexample to C5 as stated: on the sample 5, 5 at value 5, every
sample is at or below the value (100 percent), but the implemented rank
percentile is 75. -/
theorem C5_counterexample :
    percentileofscore_rank [5, 5] 5 = 75 ∧
    100 * (([5, 5] : List ℚ).countP (fun x => decide (x ≤ 5)) : ℚ)
      / ([5, 5] : List ℚ).length = 100 ∧
    (75 : ℚ) ≠ 100 := by
  norm_num [percentileofscore_rank, List.countP_cons, List.countP_nil]

/-- Rounding an integer-valued rational changes nothing. -/
theorem roundHalfEven_intCast (k : ℤ) : roundHalfEven (k : ℚ) = k := by
  rw [roundHalfEven, Int.floor_intCast]
  norm_num

/-- Rounding a rational with two decimal digits to two digits changes
nothing. -/
theorem pyRound_two_dec (k : ℤ) : pyRound ((k : ℚ) / 100) 2 = (k : ℚ) / 100 := by
  have h : ((k : ℚ) / 100) * 10 ^ 2 = (k : ℚ) := by
    rw [show ((10 : ℚ)) ^ 2 = 100 by norm_num]
    exact div_mul_cancel₀ _ (by norm_num)
  rw [pyRound, h, roundHalfEven_intCast]
  norm_num

/-- Per-feature direction, the values of the FEATURE_DIRECTION table in
src/app/scoring/feature_weights_config.py. -/
inductive Direction where
  | higher_is_better
  | lower_is_better
  | moderate_is_best
deriving DecidableEq

/-- interpret_from_final_score of src/app/scoring/approach2_scorer.py:
maps a 0..100 score to the interpretation string whose leading word group
is the 6-way band. -/
def interpret_from_final_score (final_score : ℚ) : String :=
  if 90 ≤ final_score then "Excellent (top 10%)"
  else if 75 ≤ final_score then "Very Good (top 25%)"
  else if 50 ≤ final_score then "Good (above median)"
  else if 25 ≤ final_score then "Fair (below median)"
  else if 10 ≤ final_score then "Poor (bottom 25%)"
  else "Very Poor (bottom 10%)"

/-- CTOExactProfiler interpretation for higher-is-better features
(src/scoringmetric/approach2/main.py), banded on the raw percentile. -/
def interpret_higher_is_better (percentile : ℚ) : String :=
  if 90 ≤ percentile then "Excellent (top 10%)"
  else if 75 ≤ percentile then "Very Good (top 25%)"
  else if 50 ≤ percentile then "Good (above median)"
  else if 25 ≤ percentile then "Fair (below median)"
  else if 10 ≤ percentile then "Poor (bottom 25%)"
  else "Very Poor (bottom 10%)"

/-- CTOExactProfiler interpretation for lower-is-better features
(src/scoringmetric/approach2/main.py), banded mirror-inverted on the raw
pre-direction percentile. -/
def interpret_lower_is_better (percentile : ℚ) : String :=
  if percentile ≤ 10 then "Excellent (top 10% - lowest values)"
  else if percentile ≤ 25 then "Very Good (top 25% - low values)"
  else if percentile ≤ 50 then "Good (below median)"
  else if percentile ≤ 75 then "Fair (above median)"
  else if percentile ≤ 90 then "Poor (top 25% - high values)"
  else "Very Poor (top 10% - highest values)"

/-- The score and interpretation fields written by
_apply_direction_override of src/app/scoring/approach2_scorer.py. -/
structure DirectedScore where
  final_score : ℚ
  interpretation : String
deriving DecidableEq

/-- _apply_direction_override of src/app/scoring/approach2_scorer.py:
recomputes the final score and interpretation from the stored (2-digit)
raw percentile according to the configured direction. -/
def apply_direction_override (direction : Direction) (raw : ℚ) : DirectedScore :=
  match direction with
  | .moderate_is_best =>
    let dist := |raw - 50|
    let final_score := max 0 (100 - 2 * dist)
    let interpretation :=
      if dist ≤ 10 then "Excellent (near portfolio middle)"
      else if dist ≤ 25 then "Very Good (close to middle)"
      else if dist ≤ 40 then "Good (moderate)"
      else if dist ≤ 50 then "Fair (away from middle)"
      else "Poor (extreme)"
    ⟨pyRound final_score 2, interpretation⟩
  | .lower_is_better =>
    ⟨pyRound (100 - raw) 2, interpret_from_final_score (100 - raw)⟩
  | .higher_is_better =>
    ⟨pyRound raw 2, interpret_from_final_score raw⟩

/-- The lower-is-better final score on a 2-digit raw percentile is
exactly 100 - raw. -/
theorem lower_final (q : ℚ) (m : ℤ) (hq : q = (m : ℚ) / 100) :
    (apply_direction_override .lower_is_better q).final_score = 100 - q := by
  show pyRound (100 - q) 2 = 100 - q
  have h : 100 - q = ((10000 - m : ℤ) : ℚ) / 100 := by
    rw [hq]
    push_cast
    ring
  rw [h, pyRound_two_dec]

/-- The higher-is-better final score on a 2-digit raw percentile is the
raw percentile itself. -/
theorem higher_final (q : ℚ) (m : ℤ) (hq : q = (m : ℚ) / 100) :
    (apply_direction_override .higher_is_better q).final_score = q := by
  show pyRound q 2 = q
  rw [hq, pyRound_two_dec]

/-- The moderate-is-best final score on a 2-digit raw percentile is the
unrounded tent formula. -/
theorem moderate_final (q : ℚ) (m : ℤ) (hq : q = (m : ℚ) / 100) :
    (apply_direction_override .moderate_is_best q).final_score
      = max 0 (100 - 2 * |q - 50|) := by
  show pyRound (max 0 (100 - 2 * |q - 50|)) 2 = max 0 (100 - 2 * |q - 50|)
  have habs : |q - 50| = ((|m - 5000| : ℤ) : ℚ) / 100 := by
    have h1 : q - 50 = ((m : ℚ) - 5000) / 100 := by
      rw [hq]
      ring
    rw [h1, abs_div, abs_of_pos (by norm_num : (0 : ℚ) < 100)]
    rw [Int.cast_abs]
    push_cast
    ring_nf
  have h2 : (100 : ℚ) - 2 * |q - 50| = ((10000 - 2 * |m - 5000| : ℤ) : ℚ) / 100 := by
    rw [habs]
    push_cast
    ring
  have h3 : max (0 : ℚ) (((10000 - 2 * |m - 5000| : ℤ) : ℚ) / 100)
      = ((max 0 (10000 - 2 * |m - 5000|) : ℤ) : ℚ) / 100 := by
    rw [Int.cast_max, Int.cast_zero]
    rcases le_total (((10000 - 2 * |m - 5000| : ℤ) : ℚ)) 0 with h | h
    · rw [max_eq_left (div_nonpos_of_nonpos_of_nonneg h (by norm_num)),
        max_eq_left h]
      norm_num
    · rw [max_eq_right (div_nonneg h (by norm_num)), max_eq_right h]
  rw [h2, h3, pyRound_two_dec]

/-- Claim C6: on the stored 2-digit raw percentile p, the direction
override returns p for higher_is_better, 100 - p for lower_is_better and
max(0, 100 - 2|p - 50|) for moderate_is_best; the lower_is_better score
strictly decreases in p, and the moderate_is_best score peaks at 100
exactly at p = 50, is symmetric around 50 and falls linearly to 0 at the
extremes. -/
theorem C6_directional_score (p : ℚ) (k : ℤ) (hp : p = (k : ℚ) / 100) :
    (apply_direction_override .higher_is_better p).final_score = p ∧
    (apply_direction_override .lower_is_better p).final_score = 100 - p ∧
    (apply_direction_override .moderate_is_best p).final_score
      = max 0 (100 - 2 * |p - 50|) ∧
    (∀ (q1 q2 : ℚ) (k1 k2 : ℤ), q1 = (k1 : ℚ) / 100 → q2 = (k2 : ℚ) / 100 →
      q1 < q2 →
      (apply_direction_override .lower_is_better q2).final_score
        < (apply_direction_override .lower_is_better q1).final_score) ∧
    (apply_direction_override .moderate_is_best 50).final_score = 100 ∧
    (∀ (q : ℚ) (m : ℤ), q = (m : ℚ) / 100 →
      ((apply_direction_override .moderate_is_best q).final_score = 100
        ↔ q = 50)) ∧
    (∀ (d : ℚ) (m : ℤ), d = (m : ℚ) / 100 →
      (apply_direction_override .moderate_is_best (50 + d)).final_score
        = (apply_direction_override .moderate_is_best (50 - d)).final_score) ∧
    (∀ (q : ℚ) (m : ℤ), q = (m : ℚ) / 100 → 0 ≤ q → q ≤ 100 →
      (apply_direction_override .moderate_is_best q).final_score
        = 100 - 2 * |q - 50|) ∧
    (apply_direction_override .moderate_is_best 0).final_score = 0 ∧
    (apply_direction_override .moderate_is_best 100).final_score = 0 := by
  refine ⟨higher_final p k hp, lower_final p k hp, moderate_final p k hp,
    ?_, ?_, ?_, ?_, ?_, ?_, ?_⟩
  · intro q1 q2 k1 k2 h1 h2 hlt
    rw [lower_final q1 k1 h1, lower_final q2 k2 h2]
    linarith
  · rw [moderate_final 50 5000 (by norm_num)]
    norm_num
  · intro q m hm
    rw [moderate_final q m hm]
    constructor
    · intro h
      by_contra hne
      have habs : 0 < |q - 50| := abs_pos.mpr (sub_ne_zero.mpr hne)
      have h1 : 100 - 2 * |q - 50| < 100 := by linarith
      have h2 : max (0 : ℚ) (100 - 2 * |q - 50|) < 100 :=
        max_lt (by norm_num) h1
      rw [h] at h2
      exact lt_irrefl _ h2
    · intro h
      rw [h]
      norm_num
  · intro d m hm
    rw [moderate_final (50 + d) (5000 + m) (by rw [hm]; push_cast; ring),
      moderate_final (50 - d) (5000 - m) (by rw [hm]; push_cast; ring)]
    have h1 : |50 + d - 50| = |d| := by ring_nf
    have h2 : |50 - d - 50| = |d| := by
      rw [show (50 : ℚ) - d - 50 = -d by ring, abs_neg]
    rw [h1, h2]
  · intro q m hm h0 h100
    rw [moderate_final q m hm]
    rcases le_total q 50 with h | h
    · rw [abs_of_nonpos (by linarith)]
      rw [max_eq_right (by linarith)]
    · rw [abs_of_nonneg (by linarith)]
      rw [max_eq_right (by linarith)]
  · rw [moderate_final 0 0 (by norm_num)]
    norm_num
  · rw [moderate_final 100 10000 (by norm_num)]
    norm_num

/-- Witness for C6 at the 2-digit raw percentile 62.5 with the
lower_is_better direction. -/
theorem C6_directional_score_witness :
    (apply_direction_override .lower_is_better (125 / 2)).final_score
      = 100 - 125 / 2 :=
  (C6_directional_score (125 / 2) 6250 (by norm_num)).2.1

/-- The prefix of a character list before the first occurrence of the
two-character delimiter space-open-paren, modelling the Python
split(" (")[0] of _interpretation_to_category. -/
def take_before_delim : List Char → List Char
  | [] => []
  | c :: cs =>
    if c = ' ' ∧ cs.headD 'x' = '(' then []
    else c :: take_before_delim cs

/-- Python str.strip: drop whitespace from both ends. -/
def py_strip (s : List Char) : List Char :=
  ((s.dropWhile (fun c => c.isWhitespace)).reverse.dropWhile
    (fun c => c.isWhitespace)).reverse

/-- _interpretation_to_category of src/app/scoring/approach2_scorer.py:
the short category is the stripped prefix of the interpretation string
before the first parenthesised remark; the empty string maps to N/A. -/
def interpretation_to_category (interpretation : String) : String :=
  if interpretation = "" then "N/A"
  else String.mk (py_strip (take_before_delim interpretation.data))

/-- The 6-way banding for higher-is-better-oriented scores exactly as
written in the spec (reference definition for the refinement claim C7). -/
def spec_categorize (score : ℚ) : String :=
  if 90 ≤ score then "Excellent"
  else if 75 ≤ score then "Very Good"
  else if 50 ≤ score then "Good"
  else if 25 ≤ score then "Fair"
  else if 10 ≤ score then "Poor"
  else "Very Poor"

/-- The mirror-inverted bands on the pre-direction percentile exactly as
written in the spec (reference definition for the refinement claim C7). -/
def spec_mirror_bands (p : ℚ) : String :=
  if p ≤ 10 then "Excellent"
  else if p ≤ 25 then "Very Good"
  else if p ≤ 50 then "Good"
  else if p ≤ 75 then "Fair"
  else if p ≤ 90 then "Poor"
  else "Very Poor"

/-- Claim C7: the short category extracted from the interpretation
strings reproduces the spec banding exactly: the final-score and
higher-is-better interpretations follow the 6-way table on the score,
the lower-is-better interpretation follows the mirror-inverted bands on
the pre-direction percentile, and for every percentile p the mirrored
bands agree with the higher-is-better bands applied to 100 - p. -/
theorem C7_categorize_bands :
    (∀ s : ℚ, interpretation_to_category (interpret_from_final_score s)
      = spec_categorize s) ∧
    (∀ s : ℚ, interpretation_to_category (interpret_higher_is_better s)
      = spec_categorize s) ∧
    (∀ p : ℚ, interpretation_to_category (interpret_lower_is_better p)
      = spec_mirror_bands p) ∧
    (∀ p : ℚ, spec_mirror_bands p = spec_categorize (100 - p)) := by
  refine ⟨?_, ?_, ?_, ?_⟩
  · intro s
    unfold interpret_from_final_score spec_categorize
    split_ifs <;> rfl
  · intro s
    unfold interpret_higher_is_better spec_categorize
    split_ifs <;> rfl
  · intro p
    unfold interpret_lower_is_better spec_mirror_bands
    split_ifs <;> rfl
  · intro p
    unfold spec_mirror_bands spec_categorize
    split_ifs <;> first | rfl | linarith

/-- FEATURE_WEIGHTS of src/app/scoring/feature_weights_config.py: overall
per-feature weights. -/
def FEATURE_WEIGHTS : List (String × ℚ) :=
  [("weather_total_precipitation_mm", 0.0375),
   ("weather_rainy_days", 0.05),
   ("weather_total_snowfall_cm", 0.05),
   ("weather_days_below_freezing", 0.025),
   ("weather_total_sunshine_hours", 0.025),
   ("weather_days_pleasant_temp", 0.0375),
   ("weather_avg_daily_max_windspeed_ms", 0.025),
   ("nearest_gas_station_distance_miles", 0.05),
   ("nearest_gas_station_rating", 0.02),
   ("nearest_gas_station_rating_count", 0.03),
   ("competitors_count_4miles", 0.1225),
   ("competitor_1_google_rating", 0.0525),
   ("competitor_1_distance_miles", 0.105),
   ("competitor_1_rating_count", 0.07),
   ("distance_nearest_costco(5 mile)", 0.09),
   ("distance_nearest_walmart(5 mile)", 0.06),
   ("distance_nearest_target (5 mile)", 0.045),
   ("other_grocery_count_1mile", 0.06),
   ("count_food_joints_0_5miles (0.5 mile)", 0.045)]

/-- DIMENSION_FEATURE_WEIGHTS of src/app/scoring/feature_weights_config.py:
per-dimension feature weights (summing to 1 inside each dimension). -/
def DIMENSION_FEATURE_WEIGHTS : List (String × List (String × ℚ)) :=
  [("Weather",
    [("weather_total_precipitation_mm", 0.15),
     ("weather_rainy_days", 0.2),
     ("weather_total_snowfall_cm", 0.2),
     ("weather_days_below_freezing", 0.1),
     ("weather_total_sunshine_hours", 0.1),
     ("weather_days_pleasant_temp", 0.15),
     ("weather_avg_daily_max_windspeed_ms", 0.1)]),
   ("Gas",
    [("nearest_gas_station_distance_miles", 0.5),
     ("nearest_gas_station_rating", 0.2),
     ("nearest_gas_station_rating_count", 0.3)]),
   ("Competition",
    [("competitors_count_4miles", 0.35),
     ("competitor_1_google_rating", 0.15),
     ("competitor_1_distance_miles", 0.3),
     ("competitor_1_rating_count", 0.2)]),
   ("Retail Proximity",
    [("distance_nearest_costco(5 mile)", 0.3),
     ("distance_nearest_walmart(5 mile)", 0.2),
     ("distance_nearest_target (5 mile)", 0.15),
     ("other_grocery_count_1mile", 0.2),
     ("count_food_joints_0_5miles (0.5 mile)", 0.15)])]

/-- DIMENSION_FEATURES of src/app/scoring/feature_weights_config.py: the
features belonging to each dimension. -/
def DIMENSION_FEATURES : List (String × List String) :=
  [("Weather",
    ["weather_total_precipitation_mm",
     "weather_rainy_days",
     "weather_total_snowfall_cm",
     "weather_days_below_freezing",
     "weather_total_sunshine_hours",
     "weather_days_pleasant_temp",
     "weather_avg_daily_max_windspeed_ms"]),
   ("Gas",
    ["nearest_gas_station_distance_miles",
     "nearest_gas_station_rating",
     "nearest_gas_station_rating_count"]),
   ("Retail Proximity",
    ["distance_nearest_costco(5 mile)",
     "distance_nearest_walmart(5 mile)",
     "distance_nearest_target (5 mile)",
     "other_grocery_count_1mile",
     "count_food_joints_0_5miles (0.5 mile)"]),
   ("Competition",
    ["competitors_count_4miles",
     "competitor_1_distance_miles",
     "competitor_1_google_rating",
     "competitor_1_rating_count"])]

/-- The weight lookup of compute_dimension_score in
src/app/scoring/approach2_scorer.py, dim_weights.get(f) or
FEATURE_WEIGHTS.get(f, 1.0): a missing or zero (falsy) dimension weight
falls back to the global table with default 1.0. -/
def weight_for (dim_weights global_weights : List (String × ℚ))
    (f : String) : ℚ :=
  match alist_lookup f dim_weights with
  | some w => if w = 0 then (alist_lookup f global_weights).getD 1 else w
  | none => (alist_lookup f global_weights).getD 1

/-- The body of compute_dimension_score generalised over the two weight
tables and the feature list of the dimension: weighted average over the
scored features, none when the feature list is empty or the accumulated
weight is not positive, rounded to two digits. -/
def compute_dimension_score_core (dim_weights : List (String × ℚ))
    (features : List String) (global_weights : List (String × ℚ))
    (profiler_scores : List (String × ℚ)) : Option ℚ :=
  if features = [] then none
  else
    let tw := features.foldl (fun acc f =>
      match alist_lookup f profiler_scores with
      | none => acc
      | some s =>
        let w := weight_for dim_weights global_weights f
        (acc.1 + w, acc.2 + w * s)) ((0 : ℚ), (0 : ℚ))
    if tw.1 ≤ 0 then none
    else some (pyRound (tw.2 / tw.1) 2)

/-- compute_dimension_score of src/app/scoring/approach2_scorer.py,
instantiated with the repository configuration tables. -/
def compute_dimension_score (profiler_scores : List (String × ℚ))
    (dimension_name : String) : Option ℚ :=
  compute_dimension_score_core
    ((alist_lookup dimension_name DIMENSION_FEATURE_WEIGHTS).getD [])
    ((alist_lookup dimension_name DIMENSION_FEATURES).getD [])
    FEATURE_WEIGHTS profiler_scores

/-- The scoring fold of compute_dimension_score accumulates the weight
sum and the weighted score sum over the scored features. -/
theorem dim_fold_sums (dim_weights global_weights profiler_scores :
    List (String × ℚ)) (features : List String) (acc : ℚ × ℚ) :
    features.foldl (fun acc f =>
      match alist_lookup f profiler_scores with
      | none => acc
      | some s =>
        let w := weight_for dim_weights global_weights f
        (acc.1 + w, acc.2 + w * s)) acc
    = (acc.1 + ((features.filter
          (fun f => (alist_lookup f profiler_scores).isSome)).map
          (weight_for dim_weights global_weights)).sum,
       acc.2 + ((features.filter
          (fun f => (alist_lookup f profiler_scores).isSome)).map
          (fun f => weight_for dim_weights global_weights f
            * (alist_lookup f profiler_scores).getD 0)).sum) := by
  induction features generalizing acc with
  | nil => simp
  | cons f rest ih =>
    rw [List.foldl_cons, ih]
    cases h : alist_lookup f profiler_scores with
    | none => simp [h]
    | some s =>
      simp only [h, List.filter_cons, Option.isSome_some, if_pos,
        List.map_cons, List.sum_cons, Option.getD_some]
      rw [Prod.mk.injEq]
      constructor <;> ring

/-- Rounding the exact value 70 to two digits gives 70. -/
theorem pyRound_seventy : pyRound (70 : ℚ) 2 = 70 := by
  have hfloor : ⌊(70 : ℚ) * 10 ^ 2⌋ = 7000 := by
    rw [show ((70 : ℚ) * 10 ^ 2) = ((7000 : ℤ) : ℚ) by norm_num]
    exact Int.floor_intCast 7000
  simp only [pyRound, roundHalfEven, hfloor]
  norm_num

/-- Claim C8 (amended): compute_dimension_score returns none when no
configured feature of the dimension is scored (features absent from the
score map are skipped, never counted as 0), and otherwise, whenever the
accumulated weight of the scored features is positive, it returns their
weighted average rounded to two digits (Python round); in particular a
dimension with features A, B, C, equal weights, of which only A and C are
scored with 80 and 60, yields exactly 70. -/
theorem C8_dimension_score (dim_weights : List (String × ℚ))
    (features : List String) (global_weights scores : List (String × ℚ)) :
    ((∀ f ∈ features, alist_lookup f scores = none) →
      compute_dimension_score_core dim_weights features global_weights scores
        = none) ∧
    (0 < ((features.filter (fun f => (alist_lookup f scores).isSome)).map
        (weight_for dim_weights global_weights)).sum →
      compute_dimension_score_core dim_weights features global_weights scores
        = some (pyRound
            (((features.filter (fun f => (alist_lookup f scores).isSome)).map
                (fun f => weight_for dim_weights global_weights f
                  * (alist_lookup f scores).getD 0)).sum
              / ((features.filter
                  (fun f => (alist_lookup f scores).isSome)).map
                  (weight_for dim_weights global_weights)).sum) 2)) ∧
    (compute_dimension_score_core [] ["A", "B", "C"] []
        [("A", 80), ("C", 60)] = some 70) := by
  refine ⟨?_, ?_, ?_⟩
  · intro H
    by_cases hf : features = []
    · simp [compute_dimension_score_core, hf]
    · have hnil : features.filter
          (fun f => (alist_lookup f scores).isSome) = [] := by
        rw [List.filter_eq_nil_iff]
        intro f hfm
        rw [H f hfm]
        simp
      rw [compute_dimension_score_core, if_neg hf]
      rw [dim_fold_sums dim_weights global_weights scores features (0, 0)]
      simp [hnil]
  · intro hpos
    have hf : features ≠ [] := by
      intro hf
      rw [hf] at hpos
      simp at hpos
    rw [compute_dimension_score_core, if_neg hf]
    rw [dim_fold_sums dim_weights global_weights scores features (0, 0)]
    simp only [zero_add]
    rw [if_neg (not_le.mpr hpos)]
  · simp [compute_dimension_score_core, alist_lookup, weight_for]
    norm_num [pyRound_seventy]

/-- Witness for C8: the equal-weights example applied through the
positive-weight conjunct of the theorem. -/
theorem C8_dimension_score_witness :
    compute_dimension_score_core [] ["A", "B", "C"] [] [("A", 80), ("C", 60)]
      = some (pyRound
          (((["A", "B", "C"].filter
              (fun f => (alist_lookup f [("A", (80 : ℚ)), ("C", 60)]).isSome)).map
              (fun f => weight_for [] [] f
                * (alist_lookup f [("A", (80 : ℚ)), ("C", 60)]).getD 0)).sum
            / ((["A", "B", "C"].filter
                (fun f => (alist_lookup f [("A", (80 : ℚ)), ("C", 60)]).isSome)).map
                (weight_for [] [])).sum) 2) :=
  (C8_dimension_score [] ["A", "B", "C"] [] [("A", 80), ("C", 60)]).2.1
    (by simp [alist_lookup, weight_for])

/-- Rounding 480/7 to two digits gives 68.57. -/
theorem pyRound_480_7 : pyRound (480 / 7 : ℚ) 2 = 6857 / 100 := by
  have hfloor : ⌊(480 / 7 : ℚ) * 10 ^ 2⌋ = 6857 := by
    rw [Int.floor_eq_iff]
    constructor <;> norm_num
  simp only [pyRound, roundHalfEven, hfloor]
  norm_num

/-- Counterexample to C8 as stated: in the Weather dimension with
precipitation scored 80 (weight 0.15) and rainy days scored 60 (weight
0.2), the exact weighted average is 480/7 = 68.571..., but the function
returns the rounded value 68.57. -/
theorem C8_counterexample :
    compute_dimension_score
      [("weather_total_precipitation_mm", 80), ("weather_rainy_days", 60)]
      "Weather" = some (6857 / 100) ∧
    ((0.15 : ℚ) * 80 + 0.2 * 60) / (0.15 + 0.2) = 480 / 7 ∧
    (6857 / 100 : ℚ) ≠ 480 / 7 := by
  refine ⟨?_, by norm_num, by norm_num⟩
  simp [compute_dimension_score, compute_dimension_score_core,
    DIMENSION_FEATURE_WEIGHTS, DIMENSION_FEATURES, alist_lookup, weight_for]
  split_ifs <;> norm_num [show ((24 : ℚ) / (7 / 20)) = 480 / 7 by norm_num,
    pyRound_480_7] at *

/-- Claim C10: in compute_dimension_score the weight lookup is a Python
truthiness fallback, so a feature whose per-dimension weight is 0 (or
missing) gets its weight from the global FEATURE_WEIGHTS table
(defaulting to 1.0); since every feature configured in any dimension has
a positive global weight, configuring a dimension weight as 0 never
excludes the feature from the weighted average. -/
theorem C10_zero_weight_fallback (dim_weights global_weights :
    List (String × ℚ)) (f dim : String) (feats : List String) :
    ((alist_lookup f dim_weights = none ∨
        alist_lookup f dim_weights = some 0) →
      weight_for dim_weights global_weights f
        = (alist_lookup f global_weights).getD 1) ∧
    (alist_lookup dim DIMENSION_FEATURES = some feats → f ∈ feats →
      0 < (alist_lookup f FEATURE_WEIGHTS).getD 1) ∧
    (alist_lookup dim DIMENSION_FEATURES = some feats → f ∈ feats →
      (alist_lookup f dim_weights = none ∨
        alist_lookup f dim_weights = some 0) →
      0 < weight_for dim_weights FEATURE_WEIGHTS f) := by
  have h1 : ∀ (dw gw : List (String × ℚ)) (g : String),
      (alist_lookup g dw = none ∨ alist_lookup g dw = some 0) →
      weight_for dw gw g = (alist_lookup g gw).getD 1 := by
    intro dw gw g hz
    rcases hz with h | h <;> simp [weight_for, h]
  have h2 : alist_lookup dim DIMENSION_FEATURES = some feats → f ∈ feats →
      0 < (alist_lookup f FEATURE_WEIGHTS).getD 1 := by
    intro hdim hf
    simp only [DIMENSION_FEATURES, alist_lookup] at hdim
    split_ifs at hdim
    all_goals first
      | exact Option.noConfusion hdim
      | (injection hdim with hdim
         subst hdim
         fin_cases hf <;> simp [FEATURE_WEIGHTS, alist_lookup] <;> norm_num)
  exact ⟨h1 dim_weights global_weights f, h2,
    fun hdim hf hz => by
      rw [h1 dim_weights FEATURE_WEIGHTS f hz]
      exact h2 hdim hf⟩

/-- Witness for C10: the Weather feature weather_rainy_days with an
explicit dimension weight of 0 still gets the positive global weight. -/
theorem C10_zero_weight_fallback_witness :
    0 < weight_for [("weather_rainy_days", 0)] FEATURE_WEIGHTS
      "weather_rainy_days" :=
  (C10_zero_weight_fallback [("weather_rainy_days", 0)] FEATURE_WEIGHTS
    "weather_rainy_days" "Weather"
    ["weather_total_precipitation_mm",
     "weather_rainy_days",
     "weather_total_snowfall_cm",
     "weather_days_below_freezing",
     "weather_total_sunshine_hours",
     "weather_days_pleasant_temp",
     "weather_avg_daily_max_windspeed_ms"]).2.2
    (by simp [DIMENSION_FEATURES, alist_lookup]) (by simp)
    (Or.inr (by simp [alist_lookup]))

/-- Insertion of a value into a sorted list (helper for sorting). -/
def insert_sorted (x : ℚ) : List ℚ → List ℚ
  | [] => [x]
  | y :: ys => if x ≤ y then x :: y :: ys else y :: insert_sorted x ys

/-- Ascending insertion sort, the deterministic ordering behind the
pandas quantile computations. -/
def insertion_sort : List ℚ → List ℚ
  | [] => []
  | x :: xs => insert_sorted x (insertion_sort xs)

/-- The numpy linear-interpolation quantile on an ascending nonempty
list, as used by pandas Series.quantile and pd.qcut: with
h = p (n - 1), the value is s[floor h] + (h - floor h) times the gap to
the next element. -/
def py_quantile (s : List ℚ) (p : ℚ) : ℚ :=
  let n := s.length
  let h := p * ((n : ℚ) - 1)
  let i := (⌊h⌋).toNat
  let lo := s.getD i 0
  let hi := s.getD (i + 1) lo
  lo + (h - (i : ℚ)) * (hi - lo)

/-- Quantile of an unsorted sample (pandas Series.quantile). -/
def quantile_of (xs : List ℚ) (p : ℚ) : ℚ :=
  py_quantile (insertion_sort xs) p

/-- The four tertile bin edges pd.qcut computes from the non-null
outcome values: quantiles at 0, 1/3, 2/3, 1. -/
def tertile_edges (xs : List ℚ) : List ℚ :=
  let s := insertion_sort xs
  [py_quantile s 0, py_quantile s (1/3), py_quantile s (2/3), py_quantile s 1]

/-- Collapse of equal consecutive edges, modelling the duplicates="drop"
unique-ification of the (already non-decreasing) qcut bin edges. -/
def dedup_sorted : List ℚ → List ℚ
  | [] => []
  | [a] => [a]
  | a :: b :: rest =>
    if a = b then dedup_sorted (b :: rest) else a :: dedup_sorted (b :: rest)

/-- pd.qcut with q = 3, the three fixed labels and duplicates="drop", on
the non-null outcome values: yields the four distinct bin edges, or none
when pandas raises (empty data, or duplicate collapsing leaves fewer than
3 bins so that the label count no longer matches). -/
def qcut3 (xs : List ℚ) : Option (ℚ × ℚ × ℚ × ℚ) :=
  if xs = [] then none
  else
    match dedup_sorted (tertile_edges xs) with
    | [a, b, c, d] => some (a, b, c, d)
    | _ => none

/-- Bin membership of one outcome value: qcut bins are right-closed with
the lowest edge included; values outside the edge span get NaN. -/
def assign_category (e : ℚ × ℚ × ℚ × ℚ) (v : ℚ) : Option String :=
  if v < e.1 then none
  else if v ≤ e.2.1 then some "Low Performing"
  else if v ≤ e.2.2.1 then some "Average Performing"
  else if v ≤ e.2.2.2 then some "High Performing"
  else none

/-- The non-null values of a column on the rows assigned to one tier. -/
def subset_for (col : List (Option ℚ)) (cats : List (Option String))
    (label : String) : List ℚ :=
  (List.zip cats col).filterMap
    (fun p => if p.1 = some label then p.2 else none)

/-- Minimum of a sample (0 on the empty list, never used there). -/
def list_min (xs : List ℚ) : ℚ := xs.foldl min (xs.headD 0)

/-- Maximum of a sample (0 on the empty list, never used there). -/
def list_max (xs : List ℚ) : ℚ := xs.foldl max (xs.headD 0)

/-- One tier entry of _compute_feature_ranges: skipped (none) below 5
samples, else the q25/q50/q75/min/max/count record. -/
def range_for (subset : List ℚ) : Option FeatureRange :=
  if subset.length < 5 then none
  else some ⟨quantile_of subset (1/4), quantile_of subset (1/2),
    quantile_of subset (3/4), list_min subset, list_max subset,
    subset.length⟩

/-- _compute_feature_ranges of profiler_engine.py: per feature, the per
tier quantile records. -/
def compute_feature_ranges (df : List (String × List (Option ℚ)))
    (cats : List (Option String)) (feature_cols : List String) :
    List (String × TierRanges) :=
  feature_cols.map (fun f =>
    let col := (alist_lookup f df).getD []
    (f, ⟨range_for (subset_for col cats "Low Performing"),
         range_for (subset_for col cats "Average Performing"),
         range_for (subset_for col cats "High Performing")⟩))

/-- Volume statistics of one tier (_compute_category_stats); pandas
reductions of an empty selection are NaN, modelled by none. -/
structure VolStats where
  q25 : Option ℚ
  median : Option ℚ
  q75 : Option ℚ
  vmin : Option ℚ
  vmax : Option ℚ
  mean : Option ℚ
  count : ℕ
deriving DecidableEq

/-- Statistics of one tier of outcome volumes. -/
def vol_stats (volumes : List ℚ) : VolStats :=
  if volumes = [] then ⟨none, none, none, none, none, none, 0⟩
  else ⟨some (quantile_of volumes (1/4)), some (quantile_of volumes (1/2)),
    some (quantile_of volumes (3/4)), some (list_min volumes),
    some (list_max volumes), some (volumes.sum / volumes.length),
    volumes.length⟩

/-- _compute_category_stats of profiler_engine.py. -/
def compute_category_stats (target_vals : List (Option ℚ))
    (cats : List (Option String)) : List (String × VolStats) :=
  [("Low Performing", vol_stats (subset_for target_vals cats "Low Performing")),
   ("Average Performing",
     vol_stats (subset_for target_vals cats "Average Performing")),
   ("High Performing",
     vol_stats (subset_for target_vals cats "High Performing"))]

/-- EXCLUDE_COLS of profiler_engine.py (built from the module constant
TARGET_COL). -/
def EXCLUDE_COLS : List String :=
  ["full_site_address", "cars_washed(Actual)", "performance_category"]

/-- The state QuantileProfiler.__init__ builds (the loaded dataframe
itself and the label list are carried implicitly by the inputs). -/
structure ProfilerState where
  feature_cols : List String
  categories : List (Option String)
  feature_ranges : List (String × TierRanges)
  category_stats : List (String × VolStats)
deriving DecidableEq

/-- The exceptions pandas raises out of QuantileProfiler.__init__: a
KeyError from indexing a missing column, or a ValueError from qcut. -/
inductive InitError where
  | keyError
  | valueError
deriving DecidableEq

/-- QuantileProfiler.__init__ of profiler_engine.py on an already loaded
dataframe (columns of numeric options): selects the feature columns,
splits the outcome into tertiles with pd.qcut and computes the feature
ranges and category statistics. The dataframe access raises KeyError if
the outcome column is missing; qcut raises ValueError when it cannot
form three labelled bins. No other step can abort. -/
def quantile_profiler_init (df : List (String × List (Option ℚ)))
    (target_col : String) : Except InitError ProfilerState :=
  let feature_cols := (df.map Prod.fst).filter (fun c => ¬ (c ∈ EXCLUDE_COLS))
  match alist_lookup target_col df with
  | none => .error .keyError
  | some target_vals =>
    match qcut3 (target_vals.filterMap id) with
    | none => .error .valueError
    | some edges =>
      let cats := target_vals.map
        (fun ov => ov.bind (fun v => assign_category edges v))
      .ok ⟨feature_cols, cats, compute_feature_ranges df cats feature_cols,
        compute_category_stats target_vals cats⟩

/-- A 4-row demo dataset: outcome 1..4 and one numeric feature. -/
def demo_df : List (String × List (Option ℚ)) :=
  [("cars_washed(Actual)", [some 1, some 2, some 3, some 4]),
   ("traffic", [some 10, some 20, some 30, some 40])]

/-- The tertile split of the demo outcome succeeds with edges 1,2,3,4. -/
theorem qcut3_demo : qcut3 [1, 2, 3, 4] = some (1, 2, 3, 4) := by
  have hsort : insertion_sort [1, 2, 3, 4] = [1, 2, 3, 4] := by
    norm_num [insertion_sort, insert_sorted]
  have hedges : tertile_edges [1, 2, 3, 4] = [1, 2, 3, 4] := by
    rw [tertile_edges, hsort]
    norm_num [py_quantile]
    all_goals simp
  rw [qcut3, if_neg (by simp), hedges]
  norm_num [dedup_sorted]

/-- Construction succeeds on the demo dataset. -/
theorem init_demo_ok :
    (quantile_profiler_init demo_df "cars_washed(Actual)").isOk = true := by
  have hl : alist_lookup "cars_washed(Actual)" demo_df
      = some [some 1, some 2, some 3, some 4] := by
    simp [demo_df, alist_lookup]
  have hq : qcut3 (List.filterMap id
      [some (1 : ℚ), some 2, some 3, some 4]) = some (1, 2, 3, 4) := by
    rw [show List.filterMap id [some (1 : ℚ), some 2, some 3, some 4]
      = [1, 2, 3, 4] by simp, qcut3_demo]
  simp only [quantile_profiler_init, hl, hq]
  rfl

/-- Claim C4 (amended): QuantileProfiler construction never raises a
DatasetError (no such error exists in the code) and performs no
minimum-sample validation: it aborts with a pandas KeyError exactly when
the outcome column is missing, aborts with a pandas ValueError exactly
when the tertile split cannot form three labelled bins, and succeeds
otherwise — in particular it succeeds on a dataset with only 4 non-null
outcome values, far below the 15 the claim requires for success. -/
theorem C4_init_failure_modes (df : List (String × List (Option ℚ)))
    (target_col : String) :
    (alist_lookup target_col df = none →
      quantile_profiler_init df target_col = .error .keyError) ∧
    (∀ tv, alist_lookup target_col df = some tv →
      qcut3 (tv.filterMap id) = none →
      quantile_profiler_init df target_col = .error .valueError) ∧
    (∀ tv, alist_lookup target_col df = some tv →
      qcut3 (tv.filterMap id) ≠ none →
      (quantile_profiler_init df target_col).isOk = true) ∧
    ((quantile_profiler_init demo_df "cars_washed(Actual)").isOk = true ∧
     (((alist_lookup "cars_washed(Actual)" demo_df).getD
        []).filterMap id).length = 4 ∧
     4 < 15) := by
  refine ⟨?_, ?_, ?_, init_demo_ok, by simp [demo_df, alist_lookup],
    by norm_num⟩
  · intro h
    simp [quantile_profiler_init, h]
  · intro tv h1 h2
    simp [quantile_profiler_init, h1, h2]
  · intro tv h1 h2
    obtain ⟨e, he⟩ := Option.ne_none_iff_exists'.mp h2
    simp only [quantile_profiler_init, h1, he]
    rfl

/-- Witness for C4: a dataframe without the outcome column aborts with
the KeyError. -/
theorem C4_init_failure_modes_witness :
    quantile_profiler_init [] "cars_washed(Actual)"
      = .error .keyError :=
  (C4_init_failure_modes [] "cars_washed(Actual)").1 rfl

/-- Counterexample to C4 as stated: construction succeeds on a dataset
whose outcome column has only 4 non-null values, although the claim says
any dataset with fewer than 15 non-null outcome values must fail with a
DatasetError. -/
theorem C4_counterexample :
    (quantile_profiler_init demo_df "cars_washed(Actual)").isOk = true ∧
    (((alist_lookup "cars_washed(Actual)" demo_df).getD
       []).filterMap id).length = 4 ∧
    4 < 15 :=
  ⟨init_demo_ok, by simp [demo_df, alist_lookup], by norm_num⟩
